import Mathlib

/-!
Verification of the libcrush / early-Ceph kernel-client core.

This file gives a shallow embedding, in Lean 4, of the parts of the
repository that the specification talks about:

* `src/crush/mapper.c` — the CRUSH placement algorithm
  (`crush_do_rule`, `crush_choose`, the four bucket choose methods,
  `is_out`);
* `src/kernel/osdmap.c` — OSD-map decoding and incremental application
  (`osdmap_decode`, `crush_decode`, `apply_incremental`,
  `calc_object_layout`);
* the capability engine from the caps portion of `src/kernel/osdmap.h`
  (`__ceph_caps_issued`, `handle_cap_grant`, `__send_cap`,
  `__ceph_flush_snaps`) with helpers from `src/kernel/super.h`;
* `pick_mon` from the monitor client (`src/unnamed/part_005`).

Modelling conventions:

* machine integers are `Nat`/`Int`; 32-bit unsigned wrap-around is an
  explicit `% 4294967296`; C conversions between signed and unsigned are
  the explicit functions `u32ofInt` / `s32ofU32`;
* `x & ~y` on C ints is `andn x y` below;
* a kernel `BUG_ON`, a NULL dereference, an out-of-bounds array *write*
  or a division by zero is modelled as the `none` / `bug` outcome of an
  `Option`-valued function; an out-of-bounds array *read* (which in C
  yields unspecified garbage) is modelled with `List.getD` and a fixed
  junk value, noted at each use;
* headers that are not part of the source tree (`crush/crush.h`,
  `crush/hash.h`, `ceph_fs.h`) are reconstructed: structure layouts come
  from their uses inside the source files; quantities that only those
  headers fix (the hash function, capability-bit values, the encoded
  entity-address size) are modelled from the spec and marked as such.
-/

namespace LibCrush

/-- Conversion of a C signed value to a 32-bit unsigned one (`(u32)i`). -/
def u32ofInt (i : Int) : Nat := (i % (4294967296 : Int)).toNat

/-- Reading a 32-bit unsigned value back as a C `int` (two's complement). -/
def s32ofU32 (n : Nat) : Int :=
  if n % 4294967296 < 2147483648 then ((n % 4294967296 : Nat) : Int)
  else ((n % 4294967296 : Nat) : Int) - 4294967296

/-- C `x & ~y` on capability / state masks: bits of `x` that are not in `y`.
`x &&& (x ^^^ y)` keeps exactly the bits set in `x` and clear in `y`. -/
def andn (x y : Nat) : Nat := x &&& (x ^^^ y)

/-- Modelled from the spec: `crush/hash.h` is not under `src/`.  The spec only
says "H is the CRUSH hash", a deterministic 32-bit hash; we model it as a
fixed deterministic 32-bit mixing function.  Arguments are C ints (bucket ids
may be negative) converted to `__u32` as in the source. -/
def crush_hash32_2 (a b : Int) : Nat :=
  (u32ofInt a * 1103515245 + u32ofInt b * 12345 + 1013904223) % 4294967296

/-- Modelled from the spec: three-argument variant of the CRUSH hash. -/
def crush_hash32_3 (a b c : Int) : Nat :=
  crush_hash32_2 (crush_hash32_2 a b) c

/-- Modelled from the spec: four-argument variant of the CRUSH hash. -/
def crush_hash32_4 (a b c d : Int) : Nat :=
  crush_hash32_2 (crush_hash32_2 a b) (crush_hash32_2 c d)

/-! ### CRUSH map structures

`crush/crush.h` is not under `src/`; the fields below are exactly the ones
read and written by `src/crush/mapper.c` and by `crush_decode` in
`src/kernel/osdmap.c`.  The per-algorithm payload arrays live in one
structure; a payload that the decoder did not fill is an empty list
(in C: an unallocated pointer). -/

/-- Bucket algorithm constants (`CRUSH_BUCKET_*` from the missing
`crush/crush.h`; the numeric values also act as the wire discriminator in
`crush_decode`). -/
def CRUSH_BUCKET_UNIFORM : Nat := 1
def CRUSH_BUCKET_LIST : Nat := 2
def CRUSH_BUCKET_TREE : Nat := 3
def CRUSH_BUCKET_STRAW : Nat := 4

/-- Rule step opcodes (`CRUSH_RULE_*` from the missing `crush/crush.h`). -/
def CRUSH_RULE_TAKE : Nat := 1
def CRUSH_RULE_CHOOSE_FIRSTN : Nat := 2
def CRUSH_RULE_CHOOSE_INDEP : Nat := 3
def CRUSH_RULE_EMIT : Nat := 4
def CRUSH_RULE_CHOOSE_LEAF_FIRSTN : Nat := 6
def CRUSH_RULE_CHOOSE_LEAF_INDEP : Nat := 7

/-- A crush bucket: the common header (`struct crush_bucket`) together with
the per-algorithm payload arrays of the four specialized structs. -/
structure CrushBucket where
  id : Int
  type : Nat
  alg : Nat
  weight : Nat
  size : Nat
  items : List Int
  /-- uniform buckets -/
  primes : List Nat := []
  item_weight : Nat := 0
  /-- list buckets (`item_weights` is also written by the straw decoder) -/
  item_weights : List Nat := []
  sum_weights : List Nat := []
  /-- tree buckets -/
  node_weights : List Nat := []
  /-- straw buckets -/
  straws : List Nat := []
deriving Repr, DecidableEq

/-- One step of a crush rule (`struct crush_rule_step`): op and two args.
`arg1`/`arg2` are decoded as 32-bit words but read back as C ints. -/
structure CrushRuleStep where
  op : Nat
  arg1 : Int
  arg2 : Nat
deriving Repr, DecidableEq

/-- A crush rule (`struct crush_rule`): the 4-byte mask and the steps. -/
structure CrushRule where
  mask_ruleset : Nat
  mask_type : Nat
  mask_min_size : Nat
  mask_max_size : Nat
  steps : List CrushRuleStep
deriving Repr, DecidableEq

/-- `struct crush_map`.  `buckets`/`rules` entries are `none` for NULL slots.
`device_parents` and `bucket_parents` are allocated but never filled by
`crush_decode` (kmalloc without initialization); decoded maps model that
uninitialized memory as zeros, which is noted where it matters. -/
structure CrushMap where
  max_buckets : Nat
  max_rules : Nat
  max_devices : Nat
  device_offload : List Nat
  device_parents : List Nat
  bucket_parents : List Nat
  buckets : List (Option CrushBucket)
  rules : List (Option CrushRule)
deriving Repr, DecidableEq

/-! ### Bucket choose methods (`src/crush/mapper.c` lines 56-198) -/

/-- `bucket_uniform_choose` (mapper.c lines 57-68).  A bucket of size 0 makes
the C code divide by zero (a trap), modelled as `none`. -/
def bucket_uniform_choose (b : CrushBucket) (x r : Int) (shift : Nat) :
    Option Int :=
  if b.size = 0 then none
  else
    let o := crush_hash32_2 x b.id &&& 0xffff
    let oo := crush_hash32_3 (Int.ediv r 4) b.id x
    let p := b.primes.getD (oo % b.size) 0
    let s := (u32ofInt x + o + u32ofInt (r + 1) * p) % 4294967296 % b.size
    let s' := if shift ≠ 0 then (s + shift) % b.size else s
    some (b.items.getD s' 0)

/-- `bucket_list_choose` (mapper.c lines 71-94): scan items in reverse,
accept item `i` when the scaled hash is below its weight; falling off the
front of the list is `BUG_ON(1)`, modelled as `none`.  The helper recursion
carries the current index plus one, so `0` means the scan is exhausted. -/
def bucket_list_scan (b : CrushBucket) (x r : Int) (shift : Nat) :
    Nat → Option Int
  | 0 => none
  | i + 1 =>
    let w := ((crush_hash32_4 x (b.items.getD i 0) r b.id &&& 0xffff) *
      b.sum_weights.getD i 0) >>> 16
    if w < b.item_weights.getD i 0 then
      if shift ≠ 0 then some (b.items.getD ((i + shift) % b.size) 0)
      else some (b.items.getD i 0)
    else bucket_list_scan b x r shift i

def bucket_list_choose (b : CrushBucket) (x r : Int) (shift : Nat) :
    Option Int :=
  if b.size = 0 then none else bucket_list_scan b x r shift b.size

/-- `height` (mapper.c lines 98-105): number of trailing zero bits.  The C
loop does not terminate on 0; callers only reach it with nonzero `n`.  The
fuel argument only makes the recursion structural: the value halves each
step, so fuel `n` is never exhausted. -/
def nodeHeightAux : Nat → Nat → Nat
  | 0, _ => 0
  | fuel + 1, n => if n = 0 ∨ n % 2 = 1 then 0 else nodeHeightAux fuel (n / 2) + 1

def nodeHeight (n : Nat) : Nat := nodeHeightAux n n

/-- `left` (mapper.c lines 107-110). -/
def leftNode (n : Nat) : Nat := n - (1 <<< (nodeHeight n - 1))

/-- `right` (mapper.c lines 112-115). -/
def rightNode (n : Nat) : Nat := n + (1 <<< (nodeHeight n - 1))

/-- `terminal` (mapper.c lines 117-119). -/
def terminalNode (n : Nat) : Bool := n % 2 = 1

/-- The descent loop of `bucket_tree_choose` (mapper.c lines 131-143).
Fuel bounds the walk; each step strictly lowers the node height, which for
32-bit sizes is below 33, so fuel 40 is never exhausted on runs the C code
completes; `n = 0` makes the C `height` loop diverge, modelled as `none`. -/
def treeWalk (b : CrushBucket) (x r : Int) : Nat → Nat → Option Nat
  | 0, _ => none
  | fuel + 1, n =>
    if terminalNode n then some n
    else if n = 0 then none
    else
      let w := b.node_weights.getD n 0
      let t := (crush_hash32_4 x (n : Int) r b.id * w) >>> 32
      let l := leftNode n
      if t < b.node_weights.getD l 0 then treeWalk b x r fuel l
      else treeWalk b x r fuel (rightNode n)

/-- The shift loop of `bucket_tree_choose` (mapper.c lines 145-149).  The C
loop diverges when no visited node has nonzero weight; the fuel covers
`shift` full passes over the bucket, so exhaustion models exactly that
divergence. -/
def treeShift (b : CrushBucket) : Nat → Nat → Nat → Option Nat
  | 0, _, _ => none
  | fuel + 1, n, shift =>
    if shift = 0 then some n
    else
      let n' := (n + 2) % b.size
      if b.node_weights.getD n' 0 ≠ 0 then treeShift b fuel n' (shift - 1)
      else treeShift b fuel n' shift

/-- `bucket_tree_choose` (mapper.c lines 121-152). -/
def bucket_tree_choose (b : CrushBucket) (x r : Int) (shift : Nat) :
    Option Int :=
  if b.size = 0 then none
  else
    match treeWalk b x r 40 (b.size >>> 1) with
    | none => none
    | some n =>
      match treeShift b (shift * b.size + b.size + 1) n shift with
      | none => none
      | some n' => some (b.items.getD n' 0)

/-- The scan of `bucket_straw_choose` (mapper.c lines 165-173), returning
the index with the maximal draw (ties keep the earlier index, and index 0
always replaces the initial state, as in the C `i == 0 ||` test). -/
def strawScan (b : CrushBucket) (x r : Int) :
    Nat → Nat → Nat → Nat → Nat
  | 0, high, _, _ => high
  | fuel + 1, high, highDraw, i =>
    if i ≥ b.size then high
    else
      let draw := (crush_hash32_3 x (b.items.getD i 0) r &&& 0xffff) *
        b.straws.getD i 0
      if i = 0 ∨ draw > highDraw then strawScan b x r fuel i draw (i + 1)
      else strawScan b x r fuel high highDraw (i + 1)

/-- `bucket_straw_choose` (mapper.c lines 157-177). -/
def bucket_straw_choose (b : CrushBucket) (x r : Int) (shift : Nat) :
    Option Int :=
  if b.size = 0 then none
  else
    let high := strawScan b x r (b.size + 1) 0 0 0
    let high' := if shift ≠ 0 then (high + shift) % b.size else high
    some (b.items.getD high' 0)

/-- `crush_bucket_choose` (mapper.c lines 179-198); the default case is
`BUG_ON(1)`, modelled as `none`. -/
def crush_bucket_choose (b : CrushBucket) (x r : Int) (shift : Nat) :
    Option Int :=
  if b.alg = CRUSH_BUCKET_UNIFORM then bucket_uniform_choose b x r shift
  else if b.alg = CRUSH_BUCKET_LIST then bucket_list_choose b x r shift
  else if b.alg = CRUSH_BUCKET_TREE then bucket_tree_choose b x r shift
  else if b.alg = CRUSH_BUCKET_STRAW then bucket_straw_choose b x r shift
  else none

/-- `is_out` (mapper.c lines 205-214): decide whether a device is rejected
for input `x` given the offload-weight vector.  Note the source thresholds:
`weight[item] >= 0x1000` is "never out" and `weight[item] == 0` is "always
out"; between them the 16-bit hash is compared to the weight.  A negative
`item` would read out of bounds in C; we model that read as 0. -/
def is_out (weight : List Nat) (item : Int) (x : Int) : Bool :=
  let w := if item < 0 then 0 else weight.getD item.toNat 0
  if w ≥ 0x1000 then false
  else if w = 0 then true
  else if crush_hash32_2 x item &&& 0xffff < w then false
  else true

/-! ### `crush_choose` (mapper.c lines 229-358) -/

/-- Value read from uninitialized C memory (the `kmalloc`ed scratch arrays
of `crush_do_rule` are not zeroed); modelled as a fixed junk value. -/
def uninitInt : Int := 2147483647

/-- Write `some v` at index `i`, padding with `none` (uninitialized slots)
as needed; models a store into the `out2` scratch array. -/
def setPad (l : List (Option Int)) (i : Nat) (v : Int) : List (Option Int) :=
  (l ++ List.replicate (i + 1 - l.length) none).set i (some v)

/-- `map->buckets[-1 - item]` for a (negative) bucket id; `none` covers both
an out-of-range index and a NULL slot, either of which the C code would
dereference. -/
def bucketAt (m : CrushMap) (item : Int) : Option CrushBucket :=
  if item < 0 then m.buckets.getD (Int.toNat (-1 - item)) none else none

/-- Item type lookup (mapper.c lines 287-290): buckets carry their type,
devices are type 0. -/
def itemtypeOf (m : CrushMap) (item : Int) : Option Nat :=
  if item < 0 then (bucketAt m item).map (fun b => b.type) else some 0

/-- The replica-index adjustment on retries (mapper.c lines 261-280). -/
def chooseAdjustR (alg size rep numrep : Nat) (firstn : Bool)
    (flocal ftotal shift : Nat) : Int :=
  if alg = CRUSH_BUCKET_UNIFORM then
    if firstn ∨ numrep ≥ size then (rep : Int) + (ftotal : Int) - shift
    else if size % numrep = 0 then
      (rep : Int) + ((numrep : Int) + 1) * ((flocal : Int) + ftotal - shift)
    else (rep : Int) + (numrep : Int) * ((flocal : Int) + ftotal - shift)
  else
    if firstn then (rep : Int) + (ftotal : Int) - shift
    else (rep : Int) + (numrep : Int) * ((flocal : Int) + ftotal - shift)

inductive RetryDecision where
  | retryBucket
  | retryDescent
  | skipRep
deriving Repr, DecidableEq

/-- The rejection bookkeeping of `crush_choose` (mapper.c lines 325-341):
on a rejected candidate both failure counters are incremented, the shift
counter is bumped once the incremented total count exceeds 4, and the loop
retries within the current bucket (only on a collision while the
incremented local count is below 3), restarts the descent (while the
incremented total count is below 10), or gives up on this replica. -/
def rejectUpdate (collide : Bool) (flocal ftotal shift : Nat) :
    RetryDecision × Nat × Nat × Nat :=
  let ftotal' := ftotal + 1
  let flocal' := flocal + 1
  let shift' := if ftotal' > 4 then shift + 1 else shift
  if collide ∧ flocal' < 3 then (.retryBucket, flocal', ftotal', shift')
  else if ftotal' < 10 then (.retryDescent, flocal', ftotal', shift')
  else (.skipRep, flocal', ftotal', shift')

theorem rejectUpdate_retryBucket {c : Bool} {fl ft sh a b s : Nat}
    (h : rejectUpdate c fl ft sh = (.retryBucket, a, b, s)) :
    a = fl + 1 ∧ b = ft + 1 ∧ fl + 1 < 3 := by
  simp only [rejectUpdate] at h
  split_ifs at h <;> simp_all

theorem rejectUpdate_retryDescent {c : Bool} {fl ft sh a b s : Nat}
    (h : rejectUpdate c fl ft sh = (.retryDescent, a, b, s)) :
    b = ft + 1 ∧ ft + 1 < 10 := by
  simp only [rejectUpdate] at h
  split_ifs at h <;> simp_all

inductive LoopExit where
  | store (item : Int)
  | skip
deriving Repr, DecidableEq

/-- The nested retry loops of `crush_choose` for one replica position
(mapper.c lines 250-344).  `inner` performs the recurse-to-leaf check
(given the candidate, the current output position and the leaf array, it
returns whether the inner choice failed and the updated leaf array).

A note on control flow, faithful to the source: in the intervening-bucket
branch (lines 294-299) the C `continue` jumps to the `while (retry_bucket)`
test of the inner `do`/`while`, and `retry_bucket` is 0 at that point, so
both loops exit and the chosen child-bucket id itself is stored at lines
352-353 without any collision or out check; descent below the first level
does not happen.

The fuel argument only makes the recursion structural: on every recursive
call the measure `(10 - ftotal) * 4 + (3 - flocal)` strictly decreases (a
local retry needs `flocal + 1 < 3` and also raises `ftotal`; a descent
restart needs `ftotal + 1 < 10`), and it is at most 43, so the fuel of 50
supplied by `chooseReps` is never exhausted. -/
def chooseLoop (ctx : CrushMap × List Nat × Int × Nat × Nat × Bool × Bool)
    (inner : Int → Nat → List (Option Int) → Option (Bool × List (Option Int)))
    (bucket0 : CrushBucket) :
    Nat → CrushBucket → List Int → List (Option Int) → Nat → Nat → Nat →
    Nat → Option (LoopExit × List (Option Int))
  | 0, _, _, _, _, _, _, _ => none
  | fuel + 1, inb, out, out2, rep, flocal, ftotal, shift =>
    let (map, weight, x, numrep, type, firstn, recurse) := ctx
    let r := chooseAdjustR inb.alg inb.size rep numrep firstn flocal ftotal
      shift
    match crush_bucket_choose inb x r shift with
    | none => none
    | some item =>
      if (map.max_devices : Int) ≤ item then none
      else
        match itemtypeOf map item with
        | none => none
        | some itemtype =>
          if itemtype ≠ type then
            if 0 ≤ item ∨ (map.max_buckets : Int) ≤ -1 - item then none
            else some (.store item, out2)
          else
            let collide := item ∈ out
            match (if recurse ∧ item < 0 then inner item out.length out2
                   else some (false, out2)) with
            | none => none
            | some (innerFailed, out2') =>
              let reject :=
                if innerFailed then true
                else if itemtype = 0 then is_out weight item x else false
              if reject ∨ collide then
                match rejectUpdate collide flocal ftotal shift with
                | (.retryBucket, fl', ft', sh') =>
                  chooseLoop ctx inner bucket0 fuel inb out out2' rep fl'
                    ft' sh'
                | (.retryDescent, _, ft', sh') =>
                  chooseLoop ctx inner bucket0 fuel bucket0 out out2' rep 0
                    ft' sh'
                | (.skipRep, _, _, _) => some (.skip, out2')
              else some (.store item, out2')

/-- The replica loop of `crush_choose` (mapper.c lines 248-354): replica
positions `rep` up to `numrep - 1`, starting at the incoming output
position, one iteration per unit of the first argument; a skipped replica
advances `rep` without storing. -/
def chooseReps (ctx : CrushMap × List Nat × Int × Nat × Nat × Bool × Bool)
    (inner : Int → Nat → List (Option Int) → Option (Bool × List (Option Int)))
    (bucket0 : CrushBucket) :
    Nat → Nat → List Int → List (Option Int) →
    Option (List Int × List (Option Int))
  | 0, _, out, out2 => some (out, out2)
  | rem + 1, rep, out, out2 =>
    match chooseLoop ctx inner bucket0 50 bucket0 out out2 rep 0 0 0 with
    | none => none
    | some (.skip, out2') => chooseReps ctx inner bucket0 rem (rep + 1) out
        out2'
    | some (.store item, out2') => chooseReps ctx inner bucket0 rem (rep + 1)
        (out ++ [item]) out2'

/-- `crush_choose` in the only way it calls itself: the self-call at
mapper.c lines 312-315 passes `recurse_to_leaf = 0` and `out2 = NULL`, so
the recursion is one level deep and we stratify it; with the recurse flag
off, the inner check is never consulted. -/
def crush_choose_norec (map : CrushMap) (bucket : CrushBucket)
    (weight : List Nat) (x : Int) (numrep : Nat) (type : Nat)
    (out : List Int) (firstn : Bool) : Option (List Int) :=
  match chooseReps (map, weight, x, numrep, type, firstn, false)
      (fun _ _ o2 => some (false, o2)) bucket (numrep - out.length)
      out.length out [] with
  | none => none
  | some (res, _) => res

/-- The recurse-to-leaf check (mapper.c lines 310-316): run `crush_choose`
on the candidate's own bucket for one more leaf (type 0), with `out2` as
its output array; the candidate is rejected when no new leaf was produced.
Slots of `out2` never written are uninitialized memory in C; the inner
collision scan reads them as `uninitInt`. -/
def leafInner (map : CrushMap) (weight : List Nat) (x : Int) (firstn : Bool)
    (item : Int) (outpos : Nat) (out2 : List (Option Int)) :
    Option (Bool × List (Option Int)) :=
  match bucketAt map item with
  | none => none
  | some b =>
    let seen := ((out2.map (fun o => o.getD uninitInt)) ++
      List.replicate (outpos - out2.length) uninitInt).take outpos
    match crush_choose_norec map b weight x (outpos + 1) 0 seen firstn with
    | none => none
    | some res =>
      if res.length ≤ outpos then some (true, out2)
      else some (false, setPad out2 outpos (res.getD outpos 0))

/-- `crush_choose` (mapper.c lines 229-358): choose `numrep` distinct items
of the given type from `bucket`, extending the prefix `out`; also returns
the leaf vector `out2` filled by the recurse-to-leaf checks.  `none` models
a kernel BUG/crash. -/
def crush_choose (map : CrushMap) (bucket : CrushBucket) (weight : List Nat)
    (x : Int) (numrep : Nat) (type : Nat) (out : List Int) (firstn : Bool)
    (recurse_to_leaf : Bool) (out2 : List (Option Int)) :
    Option (List Int × List (Option Int)) :=
  chooseReps (map, weight, x, numrep, type, firstn, recurse_to_leaf)
    (leafInner map weight x firstn) bucket (numrep - out.length) out.length
    out out2

/-! ### `crush_do_rule` (mapper.c lines 361-534) -/

inductive DoRuleResult where
  | ok (result : List Int)
  | err
  | bug
deriving Repr, DecidableEq

/-- The force-context walk (mapper.c lines 426-435): record the chain from
the forced item up to the root.  The parent arrays are `__u32`, read back
as C ints.  The C loop diverges on a cyclic parent map (fuel exhaustion,
`none`); reads past the parent arrays are unchecked in C and modelled
as 0. -/
def forceWalk (m : CrushMap) : Nat → Int → List Int → Option (List Int)
  | 0, _, _ => none
  | fuel + 1, force, acc =>
    let acc' := acc ++ [force]
    let parent :=
      if 0 ≤ force then s32ofU32 (m.device_parents.getD force.toNat 0)
      else s32ofU32 (m.bucket_parents.getD (Int.toNat (-1 - force)) 0)
    if parent = 0 then some acc'
    else forceWalk m fuel parent acc'

/-- The intermediate-type skip over the force context (mapper.c lines
480-484), on the (nonnegative) value of `force_pos`.  The loop dereferences
`map->buckets[-1 - force_context[force_pos]]`, so a missing bucket is a
crash. -/
def forceSkip (m : CrushMap) (fc : List Int) (arg2 : Nat) : Nat → Option Nat
  | 0 => some 0
  | fpos + 1 =>
    let fcv := fc.getD (fpos + 1) 0
    if 0 ≤ fcv then some (fpos + 1)
    else
      match bucketAt m fcv with
      | none => none
      | some b =>
        if arg2 ≠ b.type then forceSkip m fc arg2 fpos else some (fpos + 1)

/-- The inner loop of a CHOOSE step (mapper.c lines 465-499): for each item
of the working vector `w`, run `crush_choose` and append its output to the
step output `o` (and the leaf outputs to `c`).  The collision scan inside
`crush_choose` only sees the segment built by that one call (the C passes
`o + osize`), not entries from earlier items of `w`. -/
def chooseIter (map : CrushMap) (weight : List Nat) (x : Int)
    (result_max : Nat) (arg1 : Int) (arg2 : Nat) (firstn recurse : Bool)
    (fc : List Int) :
    List Int → List Int → List (Option Int) → Int →
    Option (List Int × List (Option Int) × Int)
  | [], o, c, fpos => some (o, c, fpos)
  | wi :: rest, o, c, fpos =>
    let nr : Int := if arg1 ≤ 0 then arg1 + result_max else arg1
    if nr ≤ 0 then
      chooseIter map weight x result_max arg1 arg2 firstn recurse fc rest
        o c fpos
    else
      match (if o.length = 0 ∧ 0 ≤ fpos then
               match forceSkip map fc arg2 fpos.toNat with
               | none => none
               | some fpos' =>
                 some ([fc.getD fpos' 0],
                   (if recurse then [some (fc.getD 0 0)]
                    else ([] : List (Option Int))),
                   (fpos' : Int) - 1)
             else some (([] : List Int), ([] : List (Option Int)), fpos)) with
      | none => none
      | some (segSeed, segC0, fpos1) =>
        match bucketAt map wi with
        | none => none
        | some b =>
          match crush_choose map b weight x nr.toNat arg2 segSeed firstn
              recurse segC0 with
          | none => none
          | some (segOut, segC') =>
            chooseIter map weight x result_max arg1 arg2 firstn recurse fc
              rest (o ++ segOut)
              ((c ++ List.replicate (o.length - c.length) none) ++ segC')
              fpos1

/-- The step interpreter of `crush_do_rule` (mapper.c lines 439-524).
`w` is the working vector, `result` the output vector.  On an EMIT, `w` is
appended to `result` up to `result_max` entries (the C loop bound at line
514).  After a recurse-to-leaf choose, the leaf array `c` replaces the step
output (the memcpy at line 503); leaf slots never written are uninitialized
memory, read as `uninitInt`. -/
def doSteps (map : CrushMap) (weight : List Nat) (x : Int)
    (result_max : Nat) (fc : List Int) :
    List CrushRuleStep → List Int → List Int → Int → Option (List Int)
  | [], _, result, _ => some result
  | step :: rest, w, result, fpos =>
    if step.op = CRUSH_RULE_TAKE then
      if 0 ≤ fpos then
        if fc.getD fpos.toNat 0 ≠ step.arg1 then none
        else doSteps map weight x result_max fc rest [step.arg1] result
          (fpos - 1)
      else doSteps map weight x result_max fc rest [step.arg1] result fpos
    else if step.op = CRUSH_RULE_CHOOSE_LEAF_FIRSTN ∨
        step.op = CRUSH_RULE_CHOOSE_FIRSTN ∨
        step.op = CRUSH_RULE_CHOOSE_LEAF_INDEP ∨
        step.op = CRUSH_RULE_CHOOSE_INDEP then
      let firstn := step.op = CRUSH_RULE_CHOOSE_LEAF_FIRSTN ∨
        step.op = CRUSH_RULE_CHOOSE_FIRSTN
      let recurse := step.op = CRUSH_RULE_CHOOSE_LEAF_FIRSTN ∨
        step.op = CRUSH_RULE_CHOOSE_LEAF_INDEP
      if w = [] then none
      else
        match chooseIter map weight x result_max step.arg1 step.arg2 firstn
            recurse fc w [] [] fpos with
        | none => none
        | some (o, c, fpos') =>
          let w' :=
            if recurse then
              ((c ++ List.replicate (o.length - c.length) none).take
                o.length).map (fun (v : Option Int) => v.getD uninitInt)
            else o
          doSteps map weight x result_max fc rest w' result fpos'
    else if step.op = CRUSH_RULE_EMIT then
      doSteps map weight x result_max fc rest []
        (result ++ w.take (result_max - result.length)) fpos
    else none

/-- `crush_do_rule` (mapper.c lines 370-534): calculate a mapping for hash
input `x` under rule `ruleno`.  `err` is the C return value -1 (a
force-fed device that does not exist; allocation failure is not modelled),
`bug` a BUG_ON or crash. -/
def crush_do_rule (map : CrushMap) (ruleno : Nat) (x : Int)
    (result_max : Nat) (force : Int) (weight : List Nat) : DoRuleResult :=
  if map.max_rules ≤ ruleno then .bug
  else
    match map.rules.getD ruleno none with
    | none => .bug
    | some rule =>
      if 0 ≤ force ∧ ((map.max_devices : Int) ≤ force ∨
          map.device_parents.getD force.toNat 0 = 0) then .err
      else
        let fcWalk : Option (List Int) :=
          if 0 ≤ force then
            if is_out weight force x then some []
            else forceWalk map (map.max_devices + map.max_buckets + 2)
              force []
          else some []
        match fcWalk with
        | none => .bug
        | some fc =>
          match doSteps map weight x result_max fc rule.steps [] []
              ((fc.length : Int) - 1) with
          | none => .bug
          | some res => .ok res

/-! ### Byte-stream decoding (`src/kernel/osdmap.c`)

The decode state is a byte list and a cursor.  `ceph_decode_need` is the
bounds check of `decode.h`; the raw reads and skips move the cursor without
checking (several call sites in the source skip or read beyond their
earlier check — the model moves the cursor the same way, and a raw read
past the end, undefined in C, yields 0).  A decoder is a state-and-failure
function; failure (`goto bad`) is `none`. -/

structure Dec where
  bytes : List Nat
  pos : Nat
deriving Repr, DecidableEq

def DecM (α : Type) : Type := Dec → Option (α × Dec)

instance : Monad DecM where
  pure a := fun d => some (a, d)
  bind m f := fun d => match m d with
    | none => none
    | some (a, d') => f a d'

/-- `ceph_decode_need(p, end, n, bad)`. -/
def decNeed (n : Nat) : DecM Unit := fun d =>
  if d.pos + n ≤ d.bytes.length then some ((), d) else none

/-- Raw unchecked byte read (`*p` past a check; past the end it is
undefined in C, modelled as 0) plus cursor advance. -/
def decByte : DecM Nat := fun d =>
  some (d.bytes.getD d.pos 0, { d with pos := d.pos + 1 })

/-- Little-endian 16-bit read (`ceph_decode_16`). -/
def dec16 : DecM Nat := do
  let a ← decByte
  let b ← decByte
  pure (a + b * 256)

/-- Little-endian 32-bit read (`ceph_decode_32`). -/
def dec32 : DecM Nat := do
  let a ← dec16
  let b ← dec16
  pure (a + b * 65536)

/-- Little-endian 64-bit read (`ceph_decode_64`). -/
def dec64 : DecM Nat := do
  let a ← dec32
  let b ← dec32
  pure (a + b * 4294967296)

/-- `ceph_decode_64_safe`. -/
def dec64safe : DecM Nat := do
  decNeed 8
  dec64

/-- `struct ceph_osdmap` (osdmap.h lines 19-50).  Addresses are kept as raw
byte lists; `crush` is `none` for a NULL pointer. -/
structure OsdMap where
  fsid_major : Nat
  fsid_minor : Nat
  epoch : Nat
  ctime_sec : Nat
  ctime_nsec : Nat
  mtime_sec : Nat
  mtime_nsec : Nat
  pg_num : Nat
  pg_num_mask : Nat
  pgp_num : Nat
  pgp_num_mask : Nat
  lpg_num : Nat
  lpg_num_mask : Nat
  lpgp_num : Nat
  lpgp_num_mask : Nat
  last_pg_change : Nat
  flags : Nat
  max_osd : Nat
  osd_state : List Nat
  osd_addr : List (List Nat)
  crush : Option CrushMap
  num_pg_swap_primary : Nat
  pg_swap_primary : List (Nat × Nat)
deriving Repr, DecidableEq

/-- Modelled from the spec: `union ceph_pg` is declared in the missing
`ceph_fs.h`.  The claim concerns the placement-seed field `ps`, kept here
as the unsigned 32-bit value the source assigns. -/
structure ObjectLayout where
  ps : Nat
  preferred : Int
  pg_type : Nat
  pg_size : Nat
deriving Repr, DecidableEq

/-- `calc_object_layout` (osdmap.c lines 594-621).  Lines 605-611 select
`num`/`num_mask` from the map (`lpg_num_mask` when a preferred OSD is set,
`pg_num_mask` otherwise), but neither variable is used afterwards: `ps` is
assigned the raw `bno + crush_hash32_2(ino, ino >> 32)` with no mask. -/
def calc_object_layout (ino bno : Nat) (preferred : Int)
    (pg_type pg_size : Nat) (osdmap : OsdMap) : ObjectLayout :=
  let _num_mask :=
    if 0 ≤ preferred then osdmap.lpg_num_mask else osdmap.pg_num_mask
  { ps := (bno + crush_hash32_2 ((ino % 4294967296 : Nat) : Int)
      ((ino >>> 32 : Nat) : Int)) % 4294967296
    preferred := preferred
    pg_type := pg_type
    pg_size := pg_size }

/-! ### The capability engine
(caps portion of `src/kernel/osdmap.h`, helpers from `src/kernel/super.h`) -/

/-- Modelled from the spec: the capability bits are declared in the missing
`ceph_fs.h`.  The spec names RD, RDCACHE, WR, WRBUFFER and EXCL; the claims
depend only on the bits being distinct. -/
def CEPH_CAP_PIN : Nat := 1
def CEPH_CAP_RD : Nat := 2
def CEPH_CAP_RDCACHE : Nat := 4
def CEPH_CAP_WR : Nat := 8
def CEPH_CAP_WRBUFFER : Nat := 16
def CEPH_CAP_EXCL : Nat := 128

/-- `struct ceph_cap` (super.h lines 127-136), flattened with the two
fields of its session that the cap code reads under `s_cap_lock`
(`s_cap_gen`, `s_cap_ttl`). -/
structure CapEntry where
  mds : Nat
  issued : Nat
  implemented : Nat
  seq : Nat
  mseq : Nat
  gen : Nat
  sessionGen : Nat
  sessionTtl : Nat
deriving Repr, DecidableEq

/-- The staleness test of `__ceph_caps_issued` (osdmap.h caps portion,
line 295): `cap->gen < gen || time_after_eq(jiffies, ttl)`.  The jiffies
comparison is modelled as a plain `≥` (no wrap-around). -/
def capStale (now : Nat) (c : CapEntry) : Bool :=
  c.gen < c.sessionGen ∨ c.sessionTtl ≤ now

/-- `__ceph_caps_issued` (osdmap.h caps portion, lines 279-308): start from
`ci->i_snap_caps` and OR in `cap->issued` of every cap that is not stale.
(The optional `implemented` out-parameter is NULL at both call sites inside
`handle_cap_grant` and is not modelled.) -/
def ceph_caps_issued (snapCaps : Nat) (caps : List CapEntry) (now : Nat) :
    Nat :=
  caps.foldl (fun acc c => if capStale now c then acc else acc ||| c.issued)
    snapCaps

/-- The fields of `struct ceph_inode_info` (super.h lines 182-254) that the
embedded capability functions read or write. -/
structure CephInode where
  caps : List CapEntry
  i_snap_caps : Nat
  i_rd_ref : Nat
  i_rdcache_ref : Nat
  i_wr_ref : Nat
  i_wrbuffer_ref : Nat
  i_rdcache_gen : Nat
  i_rdcache_pending : Bool
  i_nr_by_mode : List Nat
  i_max_size : Nat
  i_wanted_max_size : Nat
  i_requested_max_size : Nat
deriving Repr, DecidableEq

/-- `__ceph_caps_used` (super.h lines 373-385).  Note RDCACHE counts as
used when either the reference count or `i_rdcache_gen` is nonzero. -/
def ceph_caps_used (ci : CephInode) : Nat :=
  (if ci.i_rd_ref ≠ 0 then CEPH_CAP_RD else 0) |||
  (if ci.i_rdcache_ref ≠ 0 ∨ ci.i_rdcache_gen ≠ 0 then CEPH_CAP_RDCACHE
   else 0) |||
  (if ci.i_wr_ref ≠ 0 then CEPH_CAP_WR else 0) |||
  (if ci.i_wrbuffer_ref ≠ 0 then CEPH_CAP_WRBUFFER else 0)

/-- Modelled from the spec: `ceph_caps_for_mode` lives in the missing
`ceph_fs.h`; the spec says wanted bits are those "implied by open modes".
The exact table is immaterial to the claims. -/
def ceph_caps_for_mode (mode : Nat) : Nat :=
  if mode = 1 then CEPH_CAP_RD ||| CEPH_CAP_RDCACHE
  else if mode = 2 then
    CEPH_CAP_RD ||| CEPH_CAP_RDCACHE ||| CEPH_CAP_WR ||| CEPH_CAP_WRBUFFER
  else if mode = 3 then CEPH_CAP_WR ||| CEPH_CAP_WRBUFFER
  else CEPH_CAP_PIN

/-- `__ceph_caps_file_wanted` (super.h lines 390-398). -/
def ceph_caps_file_wanted (ci : CephInode) : Nat :=
  (List.range 4).foldl
    (fun acc mode =>
      if ci.i_nr_by_mode.getD mode 0 ≠ 0 then acc ||| ceph_caps_for_mode mode
      else acc) 0

/-- `__ceph_caps_wanted` (super.h lines 403-409): open-mode bits plus used
bits, demanding EXCL when there is buffered write data. -/
def ceph_caps_wanted (ci : CephInode) : Nat :=
  let w := ceph_caps_file_wanted ci ||| ceph_caps_used ci
  if w &&& CEPH_CAP_WRBUFFER ≠ 0 then w ||| CEPH_CAP_EXCL else w

/-- The "completed revocation" test of `ceph_check_caps` (osdmap.h caps
portion, lines 693-698): ack when something is revoked and no revoked bit
is still in use (here the `&` at line 694 *is* bitwise). -/
def check_caps_completed_revocation (implemented issued used : Nat) :
    Bool :=
  andn implemented issued ≠ 0 ∧ andn implemented issued &&& used = 0

/-! ### Cap-snap flushing (osdmap.h caps portion, lines 524-609
and 1167-1193) -/

/-- `struct ceph_cap_snap` (super.h lines 143-153), the fields the flush
loop reads. -/
structure CapSnap where
  follows : Nat
  dirty : Nat
  writing : Bool
deriving Repr, DecidableEq

/-- One pass of the `__ceph_flush_snaps` scan (lines 544-603): walking the
list head-to-tail, skip entries at or below the watermark (line 548) and —
via the `continue` at line 555 — entries that are still dirty or writing;
return the `follows` of the first remaining entry, which is the one whose
FLUSHSNAP is sent. -/
def flushSnapsPass (f : Nat) : List CapSnap → Option Nat
  | [] => none
  | s :: rest =>
    if s.follows ≤ f then flushSnapsPass f rest
    else if s.dirty ≠ 0 ∨ s.writing then flushSnapsPass f rest
    else some s.follows

/-- The `goto retry` loop of `__ceph_flush_snaps`: after each send the
watermark becomes that entry's `follows` and the list is rescanned from the
head.  The session juggling (lines 557-582) does not change which messages
are sent.  The fuel only makes the recursion structural: each send strictly
raises the watermark to a `follows` value present in the list, so at most
`snaps.length` sends happen. -/
def flushSnapsAux (snaps : List CapSnap) : Nat → Nat → List Nat
  | 0, _ => []
  | fuel + 1, f =>
    match flushSnapsPass f snaps with
    | none => []
    | some fl => fl :: flushSnapsAux snaps fuel fl

/-- `__ceph_flush_snaps` (lines 524-609), reduced to the ordered sequence
of `follows` values for which a FLUSHSNAP message is sent. -/
def ceph_flush_snaps_sent (snaps : List CapSnap) : List Nat :=
  flushSnapsAux snaps (snaps.length + 1) 0

/-- `handle_cap_flushedsnap` (lines 1167-1193): drop the first cap-snap
whose `follows` matches the ack (the WARN_ON at line 1183 only logs). -/
def handle_cap_flushedsnap (snaps : List CapSnap) (follows : Nat) :
    List CapSnap :=
  snaps.eraseP (fun s => s.follows = follows)

/-! ### `pick_mon` (`src/unnamed/part_005` lines 59-67) -/

/-- `pick_mon`: reuse `last_mon` when it is set and no monitor is excluded;
otherwise pick pseudo-randomly from a random byte `r`.  `r` is read into a
`char` (signed 8-bit on the reference platform, so in [-128, 127]);
`num_mon` is `u32`, so the C `%` first converts `r` to unsigned 32-bit and
takes the remainder there.  Returns the chosen index, which is also stored
back into `last_mon`. -/
def pick_mon (last_mon : Int) (notmon : Int) (r : Int) (num_mon : Nat) :
    Int :=
  if notmon < 0 ∧ 0 ≤ last_mon then last_mon
  else ((u32ofInt r % num_mon : Nat) : Int)

/-! ## Claims -/

/-! ### C10 — `pick_mon` stays in range -/

/-- C10: for a monitor map with `num_mon ≥ 1`, `pick_mon` returns an index
in `[0, num_mon)` — reusing `last_mon` (under the initialization invariant
that the stored value is below `num_mon`; `ceph_monc_init` zeroes it) and
on the pseudo-random path for any random byte: `num_mon` is `u32`, so the
C `%` converts the (possibly negative) `char` to unsigned first and the
remainder is always in range.  Hence every get-map, statfs and umount
request addresses an in-bounds entry of `mon_inst`. -/
theorem pick_mon_in_range (last_mon notmon r : Int) (num_mon : Nat)
    (hn : 1 ≤ num_mon) (hl : last_mon < num_mon) :
    0 ≤ pick_mon last_mon notmon r num_mon ∧
      pick_mon last_mon notmon r num_mon < num_mon := by
  unfold pick_mon
  split_ifs with h
  · exact ⟨h.2, hl⟩
  · refine ⟨Int.ofNat_nonneg _, ?_⟩
    exact_mod_cast Nat.mod_lt _ (by omega)

/-- C10 witness: a fresh client (`last_mon = -1` after a reset, say) with 3
monitors and the random byte 0xfe (`char` value -2) still gets index
`u32(-2) % 3 = 2`. -/
theorem pick_mon_in_range_witness :
    (1 ≤ 3 ∧ (-1 : Int) < (3 : Nat)) ∧
      (0 ≤ pick_mon (-1) (-1) (-2) 3 ∧ pick_mon (-1) (-1) (-2) 3 < 3) :=
  ⟨⟨by decide, by decide⟩, pick_mon_in_range (-1) (-1) (-2) 3 (by decide)
    (by decide)⟩

/-! ### C9 — `calc_object_layout` forgets the pg mask -/

/-- An OSD map with `pg_num = 4` (so `pg_num_mask = 3`) and `lpg_num = 2`
(mask 1). -/
def c9_map : OsdMap :=
  { fsid_major := 0, fsid_minor := 0, epoch := 1
    ctime_sec := 0, ctime_nsec := 0, mtime_sec := 0, mtime_nsec := 0
    pg_num := 4, pg_num_mask := 3, pgp_num := 4, pgp_num_mask := 3
    lpg_num := 2, lpg_num_mask := 1, lpgp_num := 2, lpgp_num_mask := 1
    last_pg_change := 0, flags := 0, max_osd := 4
    osd_state := [1, 1, 1, 1], osd_addr := [[], [], [], []]
    crush := none, num_pg_swap_primary := 0, pg_swap_primary := [] }

/-- C9: the claim says `ps` equals `bno + H(ino, ino >> 32)` *masked to*
`pg_num_mask`; the code computes `num_mask` (lines 605-611) but never
applies it, so `ps` is the raw sum.  At `ino = 1`, `bno = 7` on `c9_map`
the raw `ps` is not equal to its masked value (not even within the low 16
bits), so the mapping addresses a pg outside `[0, pg_num)`. -/
theorem calc_object_layout_unmasked :
    (calc_object_layout 1 7 (-1) 0 2 c9_map).ps =
      (7 + crush_hash32_2 1 0) % 4294967296 ∧
    (calc_object_layout 1 7 (-1) 0 2 c9_map).ps ≠
      (calc_object_layout 1 7 (-1) 0 2 c9_map).ps &&& c9_map.pg_num_mask ∧
    (calc_object_layout 1 7 (-1) 0 2 c9_map).ps &&& 0xffff ≠
      (calc_object_layout 1 7 (-1) 0 2 c9_map).ps &&& c9_map.pg_num_mask := by
  decide

/-! ### C3 — the "out" check contradicts the offload documentation -/

/-- The straw map of spec scenario B: one straw bucket with devices
0-3. -/
def c3_bucket : CrushBucket :=
  { id := -1, type := 1, alg := CRUSH_BUCKET_STRAW, weight := 4 * 65536
    size := 4, items := [0, 1, 2, 3]
    straws := [65536, 65536, 65536, 65536] }

def c3_rule : CrushRule :=
  { mask_ruleset := 0, mask_type := 0, mask_min_size := 1
    mask_max_size := 10
    steps := [⟨CRUSH_RULE_TAKE, -1, 0⟩, ⟨CRUSH_RULE_CHOOSE_FIRSTN, 3, 0⟩,
      ⟨CRUSH_RULE_EMIT, 0, 0⟩] }

def c3_map : CrushMap :=
  { max_buckets := 1, max_rules := 1, max_devices := 4
    device_offload := [0, 0, 0, 0], device_parents := [0, 0, 0, 0]
    bucket_parents := [0], buckets := [some c3_bucket]
    rules := [some c3_rule] }

/-- C3: `osdmap.h` line 37 documents the per-osd offload as "0 = normal,
0x10000 = 100% offload (failed)", and `apply_incremental` stores exactly
that value into `crush->device_offload`.  But `is_out` treats its weight
argument with the opposite sense — and against the wrong threshold
(`0x1000`, not `0x10000`): a fully offloaded device (0x10000) is *kept*, a
partially offloaded one (e.g. 0x1000 = 6.25%) is kept deterministically
with no hash comparison at all, and a normal device (offload 0) is thrown
*out*.  Consequently, running the spec-B scenario with every device's
offload at 0x10000 still returns all of them, and offload 0 on device 1
(a healthy device, per the documentation) removes it. -/
theorem is_out_inverted_on_offload :
    is_out [0x10000] 0 0x2010 = false ∧
    is_out [0] 0 0x2010 = true ∧
    is_out [0x1000] 0 0x2010 = false ∧
    crush_do_rule c3_map 0 0x2010 3 (-1) [0x10000, 0x10000, 0x10000, 0x10000]
      = .ok [3, 0, 1] ∧
    crush_do_rule c3_map 0 0x2010 3 (-1) [0x10000, 0, 0x10000, 0x10000]
      = .ok [3, 0, 2] := by
  decide

/-! ### C8 — the effective issued mask -/

/-- C8 counterexample: with `i_snap_caps = 1` and no caps at all the
effective issued mask is 1, while the union of `cap.issued` over the
(empty set of) non-stale caps is 0 — `__ceph_caps_issued` does not compute
just that union, it seeds it with `ci->i_snap_caps` (line 281). -/
theorem caps_issued_not_plain_union :
    ceph_caps_issued 1 [] 0 = 1 ∧ (1 : Nat) ≠ 0 := by decide

/-- C8 (amended): the effective issued mask is `i_snap_caps` OR-ed with
the union of `cap.issued` over exactly the non-stale caps, where a cap is
stale when `cap.gen < session.gen` or now is at or past the session ttl;
in particular a cap with `cap.gen < session.gen` contributes nothing. -/
theorem caps_issued_amended (snapCaps : Nat) (caps : List CapEntry)
    (now : Nat) (c : CapEntry) (hstale : c.gen < c.sessionGen) :
    ceph_caps_issued snapCaps caps now =
      snapCaps ||| ceph_caps_issued 0 caps now ∧
    ceph_caps_issued snapCaps (c :: caps) now =
      ceph_caps_issued snapCaps caps now := by
  constructor
  · simp only [ceph_caps_issued]
    induction caps generalizing snapCaps with
    | nil => simp
    | cons d l ih =>
      by_cases hd : capStale now d
      · simpa [hd] using ih snapCaps
      · simp only [List.foldl_cons, hd, Bool.false_eq_true, if_false,
          Nat.zero_or]
        rw [ih (snapCaps ||| d.issued), ih d.issued, Nat.lor_assoc]
  · simp [ceph_caps_issued, capStale, hstale]

/-- C8 witness: a stale cap (gen 0 against session gen 1) holding RD|WR
adds nothing next to a fresh cap holding RD. -/
theorem caps_issued_amended_witness :
    (0 : Nat) < 1 ∧
    (ceph_caps_issued 0 [⟨0, 2, 2, 0, 0, 5, 5, 100⟩] 0 =
        0 ||| ceph_caps_issued 0 [⟨0, 2, 2, 0, 0, 5, 5, 100⟩] 0 ∧
      ceph_caps_issued 0
          (⟨1, 10, 10, 0, 0, 0, 1, 100⟩ :: [⟨0, 2, 2, 0, 0, 5, 5, 100⟩]) 0 =
        ceph_caps_issued 0 [⟨0, 2, 2, 0, 0, 5, 5, 100⟩] 0) :=
  ⟨by decide, caps_issued_amended 0 [⟨0, 2, 2, 0, 0, 5, 5, 100⟩] 0
    ⟨1, 10, 10, 0, 0, 0, 1, 100⟩ (by decide)⟩

/-! ### C7 — cap-snap flush order -/

/-- C7 counterexample: an inode with cap-snap `follows = 5` still dirty and
cap-snap `follows = 6` clean.  `__ceph_flush_snaps` *skips* the dirty entry
(the `continue` at line 555) and sends FLUSHSNAP for `follows = 6` right
away — before the earlier cap-snap has been flushed, let alone acknowledged
by a FLUSHEDSNAP (no ack is ever awaited between sends). -/
theorem flush_snaps_skips_dirty :
    ceph_flush_snaps_sent [⟨5, 1, false⟩, ⟨6, 0, false⟩] = [6] ∧
    (⟨5, 1, false⟩ : CapSnap).dirty ≠ 0 ∧
    handle_cap_flushedsnap [⟨5, 1, false⟩, ⟨6, 0, false⟩] 6 =
      [⟨5, 1, false⟩] := by
  decide

theorem flushSnapsPass_spec (f : Nat) (snaps : List CapSnap) (fl : Nat)
    (h : flushSnapsPass f snaps = some fl) :
    f < fl ∧ ∃ s ∈ snaps, s.follows = fl ∧ s.dirty = 0 ∧ s.writing = false := by
  induction snaps with
  | nil => simp [flushSnapsPass] at h
  | cons s rest ih =>
    simp only [flushSnapsPass] at h
    split_ifs at h with h1 h2
    · obtain ⟨hf, t, ht, hp⟩ := ih h
      exact ⟨hf, t, List.mem_cons_of_mem s ht, hp⟩
    · obtain ⟨hf, t, ht, hp⟩ := ih h
      exact ⟨hf, t, List.mem_cons_of_mem s ht, hp⟩
    · cases h
      push_neg at h1 h2
      exact ⟨h1, s, List.mem_cons_self s rest, rfl, h2.1, by
        simpa using h2.2⟩

theorem flushSnapsAux_spec (snaps : List CapSnap) (fuel : Nat) :
    ∀ f, (∀ fl ∈ flushSnapsAux snaps fuel f,
        ∃ s ∈ snaps, s.follows = fl ∧ s.dirty = 0 ∧ s.writing = false) ∧
      (flushSnapsAux snaps fuel f).Chain' (· < ·) ∧
      (∀ fl ∈ flushSnapsAux snaps fuel f, f < fl) := by
  induction fuel with
  | zero => simp [flushSnapsAux]
  | succ n ih =>
    intro f
    simp only [flushSnapsAux]
    cases hp : flushSnapsPass f snaps with
    | none => simp
    | some fl =>
      obtain ⟨hlt, hex⟩ := flushSnapsPass_spec f snaps fl hp
      obtain ⟨ihmem, ihchain, ihgt⟩ := ih fl
      refine ⟨?_, ?_, ?_⟩
      · intro y hy
        rcases List.mem_cons.mp hy with rfl | hy
        · exact hex
        · exact ihmem y hy
      · refine List.chain'_cons'.mpr ⟨?_, ihchain⟩
        intro b hb
        exact ihgt b (List.mem_of_mem_head? hb)
      · intro y hy
        rcases List.mem_cons.mp hy with rfl | hy
        · exact hlt
        · exact lt_trans hlt (ihgt y hy)

/-- C7 (amended): a FLUSHSNAP is sent only for cap-snaps that are fully
clean (`dirty = 0`, `writing = false`), and the sent `follows` values
strictly increase within one invocation; but a dirty or writing cap-snap is
*skipped* rather than blocking the scan, so a later clean cap-snap can be
flushed before an earlier dirty one, and consecutive FLUSHSNAPs are sent
without waiting for any FLUSHEDSNAP acknowledgement. -/
theorem flush_snaps_amended (snaps : List CapSnap) :
    (∀ fl ∈ ceph_flush_snaps_sent snaps,
      ∃ s ∈ snaps, s.follows = fl ∧ s.dirty = 0 ∧ s.writing = false) ∧
    (ceph_flush_snaps_sent snaps).Chain' (· < ·) := by
  obtain ⟨h1, h2, _⟩ := flushSnapsAux_spec snaps (snaps.length + 1) 0
  exact ⟨h1, h2⟩

/-- C7 witness: on two clean cap-snaps both are flushed, in order, and each
sent value belongs to a clean cap-snap. -/
theorem flush_snaps_amended_witness :
    ceph_flush_snaps_sent [⟨5, 0, false⟩, ⟨6, 0, false⟩] = [5, 6] ∧
    ((∀ fl ∈ ceph_flush_snaps_sent [⟨5, 0, false⟩, ⟨6, 0, false⟩],
        ∃ s ∈ [(⟨5, 0, false⟩ : CapSnap), ⟨6, 0, false⟩], s.follows = fl ∧
          s.dirty = 0 ∧ s.writing = false) ∧
      (ceph_flush_snaps_sent [⟨5, 0, false⟩, ⟨6, 0, false⟩]).Chain' (· < ·)) :=
  ⟨by decide, flush_snaps_amended [⟨5, 0, false⟩, ⟨6, 0, false⟩]⟩

/-! ### C4 — the retry policy of the choose loop -/

/-- A one-device bucket and a rule with two TAKE/CHOOSE/EMIT blocks. -/
def c5_bucket : CrushBucket :=
  { id := -1, type := 1, alg := CRUSH_BUCKET_UNIFORM, weight := 65536
    size := 1, items := [0], primes := [1] }

def c5_rule : CrushRule :=
  { mask_ruleset := 0, mask_type := 0, mask_min_size := 1
    mask_max_size := 10
    steps := [⟨CRUSH_RULE_TAKE, -1, 0⟩, ⟨CRUSH_RULE_CHOOSE_FIRSTN, 1, 0⟩,
      ⟨CRUSH_RULE_EMIT, 0, 0⟩, ⟨CRUSH_RULE_TAKE, -1, 0⟩,
      ⟨CRUSH_RULE_CHOOSE_FIRSTN, 1, 0⟩, ⟨CRUSH_RULE_EMIT, 0, 0⟩] }

def c5_map : CrushMap :=
  { max_buckets := 1, max_rules := 1, max_devices := 1
    device_offload := [65536], device_parents := [0], bucket_parents := [0]
    buckets := [some c5_bucket], rules := [some c5_rule] }

/-- C5 counterexample: the collision scan of `crush_choose` only covers the
output segment of one call (the C passes `o + osize` and compares against
`out[0..outpos)` of that segment), so a rule with two TAKE/CHOOSE/EMIT
blocks over the same bucket returns the same device twice: the result
vector is not pairwise distinct. -/
theorem do_rule_duplicate_devices :
    crush_do_rule c5_map 0 99 2 (-1) [65536] = .ok [0, 0] ∧
    ¬ ([0, 0] : List Int).Nodup := by decide

theorem chooseLoop_store_spec (map : CrushMap) (weight : List Nat) (x : Int)
    (numrep type : Nat) (firstn recurse : Bool)
    (inner : Int → Nat → List (Option Int) →
      Option (Bool × List (Option Int))) (bucket0 : CrushBucket) :
    ∀ (fuel : Nat) (inb : CrushBucket) (out : List Int)
      (out2 : List (Option Int)) (rep flocal ftotal shift : Nat)
      (item : Int) (out2' : List (Option Int)),
      chooseLoop (map, weight, x, numrep, type, firstn, recurse) inner
        bucket0 fuel inb out out2 rep flocal ftotal shift =
        some (.store item, out2') →
      item < 0 ∨ item ∉ out := by
  intro fuel
  induction fuel with
  | zero =>
    intro inb out out2 rep fl ft sh item out2' h
    simp [chooseLoop] at h
  | succ n ih =>
    intro inb out out2 rep fl ft sh item out2' h
    simp only [chooseLoop] at h
    split at h
    · simp at h
    · rename_i item0 heqb
      split at h
      · simp at h
      · rename_i hdev
        split at h
        · simp at h
        · rename_i n' heqt
          split at h
          · -- intermediate type: the continue exits both loops and the
            -- child bucket id is stored with no collision check
            split at h
            · simp at h
            · rename_i hntype hbug
              have h2 : item0 = item := by
                have h1 := congrArg Prod.fst (Option.some.inj h)
                injection h1
              push_neg at hbug
              exact Or.inl (h2 ▸ hbug.1)
          · rename_i hntype
            split at h
            · simp at h
            · rename_i innerFailed out2i heqinner
              by_cases hoc : ((if innerFailed = true then true
                  else if n' = 0 then is_out weight item0 x else false) =
                    true ∨ item0 ∈ out)
              · rw [if_pos hoc] at h
                rcases hru : rejectUpdate (decide (item0 ∈ out)) fl ft sh
                  with ⟨dec, fl2, ft2, sh2⟩
                rw [hru] at h
                cases dec with
                | retryBucket => exact ih _ _ _ _ _ _ _ _ _ h
                | retryDescent => exact ih _ _ _ _ _ _ _ _ _ h
                | skipRep => simp at h
              · rw [if_neg hoc] at h
                have h2 : item0 = item := by
                  have h1 := congrArg Prod.fst (Option.some.inj h)
                  injection h1
                push_neg at hoc
                exact Or.inr (h2 ▸ hoc.2)

theorem chooseReps_nonneg_nodup (map : CrushMap) (weight : List Nat)
    (x : Int) (numrep type : Nat) (firstn recurse : Bool)
    (inner : Int → Nat → List (Option Int) →
      Option (Bool × List (Option Int))) (bucket0 : CrushBucket) :
    ∀ (rem rep : Nat) (out : List Int) (out2 : List (Option Int))
      (res : List Int) (out2r : List (Option Int)),
      chooseReps (map, weight, x, numrep, type, firstn, recurse) inner
        bucket0 rem rep out out2 = some (res, out2r) →
      (out.filter (fun i => decide (0 ≤ i))).Nodup →
      (res.filter (fun i => decide (0 ≤ i))).Nodup := by
  intro rem
  induction rem with
  | zero =>
    intro rep out out2 res out2r h hout
    simp only [chooseReps, Option.some.injEq, Prod.mk.injEq] at h
    exact h.1 ▸ hout
  | succ n ih =>
    intro rep out out2 res out2r h hout
    simp only [chooseReps] at h
    split at h
    · simp at h
    · -- skip
      exact ih _ _ _ _ _ h hout
    · -- store item
      rename_i item out2i heq
      refine ih _ _ _ _ _ h ?_
      rcases chooseLoop_store_spec map weight x numrep type firstn recurse
          inner bucket0 _ _ _ _ _ _ _ _ _ _ heq with hneg | hnotin
      · rw [List.filter_append]
        have hf : ([item].filter (fun i => decide (0 ≤ i))) = [] := by
          simp [List.filter_singleton, decide_eq_false (not_le.mpr hneg)]
        rw [hf, List.append_nil]
        exact hout
      · rw [List.filter_append]
        by_cases hpos : (0 : Int) ≤ item
        · have hf : ([item].filter (fun i => decide (0 ≤ i))) = [item] := by
            simp [List.filter_singleton, decide_eq_true hpos]
          rw [hf, List.nodup_append]
          refine ⟨hout, List.nodup_singleton item, ?_⟩
          intro a ha hb
          rcases List.mem_singleton.mp hb with rfl
          exact hnotin (List.mem_of_mem_filter ha)
        · have hf : ([item].filter (fun i => decide (0 ≤ i))) = [] := by
            simp [List.filter_singleton, decide_eq_false hpos]
          rw [hf, List.append_nil]
          exact hout

theorem crush_choose_norec_nonneg_nodup (map : CrushMap)
    (bucket : CrushBucket) (weight : List Nat) (x : Int)
    (numrep type : Nat) (out : List Int) (firstn : Bool) (res : List Int)
    (h : crush_choose_norec map bucket weight x numrep type out firstn =
      some res)
    (hout : (out.filter (fun i => decide (0 ≤ i))).Nodup) :
    (res.filter (fun i => decide (0 ≤ i))).Nodup := by
  unfold crush_choose_norec at h
  split at h
  · simp at h
  · rename_i p heq
    cases h
    exact chooseReps_nonneg_nodup map weight x numrep type firstn false _
      bucket _ _ _ _ _ _ heq hout

theorem doSteps_length (map : CrushMap) (weight : List Nat) (x : Int)
    (result_max : Nat) (fc : List Int) :
    ∀ (steps : List CrushRuleStep) (w result : List Int) (fpos : Int)
      (res : List Int),
      doSteps map weight x result_max fc steps w result fpos = some res →
      result.length ≤ result_max → res.length ≤ result_max := by
  intro steps
  induction steps with
  | nil =>
    intro w result fpos res h hlen
    simp only [doSteps, Option.some.injEq] at h
    exact h ▸ hlen
  | cons s rest ih =>
    intro w result fpos res h hlen
    simp only [doSteps] at h
    split_ifs at h <;>
      first
        | exact Option.noConfusion h
        | exact ih _ _ _ _ h hlen
        | (refine ih _ _ _ _ h ?_
           rw [List.length_append, List.length_take]
           omega)
        | (split at h
           · exact Option.noConfusion h
           · exact ih _ _ _ _ h hlen)

theorem crush_do_rule_length (map : CrushMap) (ruleno : Nat) (x : Int)
    (result_max : Nat) (force : Int) (weight : List Nat) (res : List Int)
    (h : crush_do_rule map ruleno x result_max force weight = .ok res) :
    res.length ≤ result_max := by
  unfold crush_do_rule at h
  repeat' split at h
  all_goals try cases h
  all_goals simp only [] at h
  all_goals repeat' split at h
  all_goals try cases h
  all_goals
    rename_i hsteps
    exact doSteps_length map weight x result_max _ _ _ _ _ _ hsteps
      (by simp)

/-- C5 (amended): the result vector of `crush_do_rule` has length at most
`result_max`; and device ids chosen within one `crush_choose` invocation
are pairwise distinct (extending any duplicate-free prefix passed in) —
but the collision scan only sees the output segment of that one
invocation, so across the multiple take/choose/emit blocks of a rule the
same device can appear twice in the final result, and when too few
eligible devices exist after the bounded retries the vector comes back
shorter rather than with repeats within a segment. -/
theorem do_rule_length_and_choose_distinct (map : CrushMap) (ruleno : Nat)
    (x : Int) (result_max : Nat) (force : Int) (weight : List Nat)
    (res : List Int)
    (h : crush_do_rule map ruleno x result_max force weight = .ok res) :
    res.length ≤ result_max ∧
    ∀ (bucket : CrushBucket) (numrep type : Nat) (out res2 : List Int)
      (firstn : Bool),
      crush_choose_norec map bucket weight x numrep type out firstn =
        some res2 →
      (out.filter (fun i => decide (0 ≤ i))).Nodup →
      (res2.filter (fun i => decide (0 ≤ i))).Nodup := by
  refine ⟨crush_do_rule_length map ruleno x result_max force weight res h,
    ?_⟩
  intro bucket numrep type out res2 firstn h2 hout
  exact crush_choose_norec_nonneg_nodup map bucket weight x numrep type out
    firstn res2 h2 hout

/-- C5 witness: the single-block scenario map returns 3 distinct devices
within the bound, and a direct `crush_choose` run on its bucket with an
empty prefix yields a duplicate-free vector. -/
def c5w_bucket : CrushBucket :=
  { id := -1, type := 1, alg := CRUSH_BUCKET_STRAW, weight := 4 * 65536
    size := 4, items := [0, 1, 2, 3]
    straws := [65536, 65536, 65536, 65536] }

def c5w_rule : CrushRule :=
  { mask_ruleset := 0, mask_type := 0, mask_min_size := 1
    mask_max_size := 10
    steps := [⟨CRUSH_RULE_TAKE, -1, 0⟩, ⟨CRUSH_RULE_CHOOSE_FIRSTN, 3, 0⟩,
      ⟨CRUSH_RULE_EMIT, 0, 0⟩] }

def c5w_map : CrushMap :=
  { max_buckets := 1, max_rules := 1, max_devices := 4
    device_offload := [65536, 65536, 65536, 65536]
    device_parents := [0, 0, 0, 0], bucket_parents := [0]
    buckets := [some c5w_bucket], rules := [some c5w_rule] }

theorem do_rule_length_and_choose_distinct_witness :
    ([3, 0, 1] : List Int).length ≤ 3 ∧
    ∀ (bucket : CrushBucket) (numrep type : Nat) (out res2 : List Int)
      (firstn : Bool),
      crush_choose_norec c5w_map bucket [65536, 65536, 65536, 65536] 0x2010
        numrep type out firstn = some res2 →
      (out.filter (fun i => decide (0 ≤ i))).Nodup →
      (res2.filter (fun i => decide (0 ≤ i))).Nodup :=
  do_rule_length_and_choose_distinct c5w_map 0 0x2010 3 (-1)
    [65536, 65536, 65536, 65536] [3, 0, 1] (by decide)

/-! ### C6 — revocation acks are only deferred for buffered writes -/

end LibCrush
